import Mathlib

/-!
Verification development for `tools/createClockFace.py` of the
websocket-clock repository: a one-shot generator that writes an SVG clock
face (optionally wrapped in an HTML page) to standard output.

The script is embedded shallowly:

* `SvgOptions` models the Python dict `svg_options`.  Optional dict keys
  become `Option` fields; `'hScale' in svg_options` / `'mScale' in
  svg_options` membership tests become the `Bool` fields `hScale` /
  `mScale` (the script only ever stores `True` under those keys).
  The key `'24hourHand'` becomes the field `h24`, and `'prefix'` becomes
  `pfx` (the Python name is not a legal Lean identifier).
* The markup written by each `print` statement is modelled by one
  constructor of `SvgElem`; `create_svg` returns the emitted elements in
  emission order.  The shadow flags `hshadow`/`mshadow`/`sshadow` are the
  literal `False` in the source, so the `<defs>` block and the filter
  wrappers are never emitted and are not modelled.
* Python raises `NameError` when the local variable `sty` is read on a
  path where its only assignment (inside the `if hScale or mScale` block)
  did not run; this is modelled by `create_svg` returning
  `Except.error NAME_ERROR`.  (The real script prints incrementally, so
  it emits a partial document before crashing; the model keeps only the
  success/failure distinction, which is what the claims are about.)
* The floating point trigonometry of the digit placement
  (`createClockFace.py` line 298-301) is modelled over `ℝ` by
  `digitPos`; the structural output stores the integer parameters
  `(i, m, r)` from which the printed coordinates are computed.
-/

/-- `str.split(',')` of Python, on the character list of a string.
`[] ↦ [[]]`, and a separator at the end yields a trailing empty group,
exactly as in Python. -/
def splitCommaAux : List Char → List (List Char)
  | [] => [[]]
  | c :: rest =>
    if c = ',' then [] :: splitCommaAux rest
    else
      match splitCommaAux rest with
      | [] => [[c]]
      | g :: gs => (c :: g) :: gs

/-- Python `s.split(',')`. -/
def splitComma (s : String) : List String :=
  (splitCommaAux s.data).map (fun cs => String.mk cs)

/-- Python `s[:1]`: the first character as a string, `""` when empty. -/
def firstCharStr (s : String) : String :=
  match s.data with
  | [] => ""
  | c :: _ => String.mk [c]

/-- The `ROMAN` lookup table, `createClockFace.py` lines 93-95, verbatim:
note that the last entry (index 24) is `"XIV"` in the source. -/
def ROMAN : List String :=
  ["XII", "I", "II", "III", "IV", "V", "VI", "VII", "VIII", "IX", "X", "XI",
   "XII", "XIII", "XIV", "XV", "XVI", "XVII", "XVIII", "XIX", "XX",
   "XXI", "XXII", "XXIII", "XIV"]

/-- The `svg_options` dict handed to `create_svg`.  `none` models an
absent key.  `digit` is doubly optional: the outer `Option` is key
presence (`'digit' in svg_options`), the inner one the stored value,
which `main()` sets to Python `None` when `--digit` is not given. -/
structure SvgOptions where
  pfx : Option String
  backgroundColor : Option (List String)
  handColor : Option String
  scaleColor : Option String
  hScale : Bool
  mScale : Bool
  scaleRadius : ℚ
  scaleStyle : Option String
  h24 : Bool
  digit : Option (Option String)
  deriving Repr, DecidableEq

/-- One printed markup fragment of `create_svg`. -/
inductive SvgElem where
  /-- `START_SVG`, line 210. -/
  | svgOpen : SvgElem
  /-- `CLOCK_BACKGROUND % (bc[0],bc[1],bc[2])`, line 242. -/
  | background (c0 c1 c2 : String) : SvgElem
  /-- `CLOCK_AXIS % hc`, line 244. -/
  | axis (color : String) : SvgElem
  /-- `CLOCK_MIN % (...)`, line 267: tick line number `i` at radius `r`,
  length `l`, stroke `color`, stroke-width `b`. -/
  | tickLine (i : ℕ) (r : ℚ) (l : ℕ) (color : String) (b : ℕ) : SvgElem
  /-- dot-style tick, line 269: circle number `i` at radius `r`, dot
  radius `rad` (`b/2` in the source), fill `color`. -/
  | tickDot (i : ℕ) (r : ℚ) (rad : ℚ) (color : String) : SvgElem
  /-- 24-hour ring dot, line 281: circle number `i` at radius `r2`, dot
  radius `rad` (`b/2`), fill `color`. -/
  | ring24Dot (i : ℕ) (r2 : ℚ) (rad : ℚ) (color : String) : SvgElem
  /-- opening `<g ...>` of the digit block, line 290. -/
  | digitGroupOpen (size color : String) : SvgElem
  /-- one digit label, line 301: index `i` of `m`, radius `r`, text
  content `txt`.  Its printed coordinates are `digitPos i m r`. -/
  | digitText (i m : ℕ) (r : ℚ) (txt : String) : SvgElem
  /-- `</g>` closing the digit block, line 302. -/
  | groupClose : SvgElem
  /-- `CLOCK_DIGITAL % x`, line 311, with `x = (color,y1,y2,y3,y4)`. -/
  | digital (color : String) (y1 y2 y3 y4 : ℚ) : SvgElem
  /-- the `ptbNotice` text element, line 313. -/
  | notice : SvgElem
  /-- the deviation group, lines 314-323, printed with `% (sc,sc)`. -/
  | deviationBlock (c1 c2 : String) : SvgElem
  /-- `HOUR_HAND % (hourhand_id,hc)`, line 326. -/
  | hourHand (hid color : String) : SvgElem
  /-- `MINUTE_HAND % hc`, line 329. -/
  | minuteHand (color : String) : SvgElem
  /-- `SECOND_HAND % 'red'`, line 332. -/
  | secondHand (color : String) : SvgElem
  /-- `END_SVG`, line 334. -/
  | svgClose : SvgElem
  deriving Repr, DecidableEq

/-- Default background triple, line 216. -/
def defaultBC : List String := ["#000000", "#eaeaea", "#ffb2b2"]

/-- Lines 212-216: `bc = svg_options['backgroundColor']; bc[2]` with the
default triple on any exception (absent key, or fewer than 3 entries). -/
def bcOf (o : SvgOptions) : List String :=
  match o.backgroundColor with
  | some l => if 3 ≤ l.length then l else defaultBC
  | none => defaultBC

/-- Lines 217-220: hand color with default. -/
def hcOf (o : SvgOptions) : String := o.handColor.getD "#000000"

/-- Lines 221-224: scale color with default. -/
def scOf (o : SvgOptions) : String := o.scaleColor.getD "#404040"

/-- Lines 226-230: the id of the hour hand group. -/
def hourhandId (o : SvgOptions) : String :=
  if o.h24 then o.pfx.getD "ptb" ++ "Hour24Hand"
  else o.pfx.getD "ptb" ++ "HourHand"

/-- The value `svg_options.get('digit',None)`. -/
def digitGet (o : SvgOptions) : Option String := o.digit.getD none

/-- Python truthiness of `svg_options.get('digit',None)` (lines 283 and
304): `None` and the empty string are falsy. -/
def digitTruthy (o : SvgOptions) : Bool :=
  match digitGet o with
  | some s => if s = "" then false else true
  | none => false

/-- `svg_options.get('digit','a')` as the string the digit block splits
(line 284); only read when `digitTruthy`, in which case the stored value
is a nonempty string. -/
def digitArg (o : SvgOptions) : String :=
  (o.digit.getD (some "a")).getD ""

/-- The local variable `sty`: assigned (lines 248-251) only inside the
`if hScale or mScale` block, hence unbound (`none`) otherwise. -/
def styO (o : SvgOptions) : Option String :=
  if o.hScale || o.mScale then some (o.scaleStyle.getD "line") else none

/-- The value `sty` would get at lines 248-251. -/
def styOf (o : SvgOptions) : String := o.scaleStyle.getD "line"

/-- Python error on reading the unbound local `sty`. -/
def NAME_ERROR : String :=
  "NameError: local variable sty referenced before assignment"

/-- Reading `sty`: a `NameError` when it was never assigned. -/
def readSty : Option String → Except String String
  | some s => Except.ok s
  | none => Except.error NAME_ERROR

/-- Lines 254-264: tick length `l` and stroke width `b` for position `i`
of the 60-position loop. -/
def tickLB (o : SvgOptions) (i : ℕ) : ℕ × ℕ :=
  if i % 5 = 0 ∧ o.hScale ∧ o.h24 = false then
    (if o.mScale then 9 else 5, 5)
  else if o.mScale then (5, 3)
  else (0, 0)

/-- Lines 265-269: the element printed for position `i` of the loop
(nothing when `l` or `b` is 0, or when the scale style is neither
`line` nor `dot`). -/
def tickElem (o : SvgOptions) (i : ℕ) : Option SvgElem :=
  if 0 < (tickLB o i).1 ∧ 0 < (tickLB o i).2 then
    if styOf o = "line" then
      some (SvgElem.tickLine i o.scaleRadius (tickLB o i).1 (scOf o) (tickLB o i).2)
    else if styOf o = "dot" then
      some (SvgElem.tickDot i o.scaleRadius (((tickLB o i).2 : ℚ) / 2) (scOf o))
    else none
  else none

/-- Lines 252-269: the 60-position tick loop. -/
def loopTicks (o : SvgOptions) : List SvgElem :=
  (List.range 60).filterMap (tickElem o)

/-- Lines 270-281: the 24-hour dot ring (`r2 = 34`,
`b = 5 if 'digit' in svg_options else 8`, dot radius `b/2`). -/
def ring24Elems (o : SvgOptions) : List SvgElem :=
  if o.h24 ∧ o.hScale then
    (List.range 24).map (fun i =>
      SvgElem.ring24Dot i 34 (((if o.digit.isSome then 5 else 8 : ℕ) : ℚ) / 2) (scOf o))
  else []

/-- Lines 246-281: everything printed under `if hScale or mScale`. -/
def tickSection (o : SvgOptions) : List SvgElem :=
  if o.hScale || o.mScale then loopTicks o ++ ring24Elems o else []

/-- Lines 283-302: the digit block.  Fails with `NameError` when it must
read the unbound `sty` (digits requested, 12-hour mode, no scale). -/
def digitBlock (o : SvgOptions) : Except String (List SvgElem) :=
  if digitTruthy o then
    match (if o.h24 then Except.ok ((39 : ℚ), 24)
           else (readSty (styO o)).map
             (fun sty => ((if sty = "line" then (35 : ℚ) else 39), 12))) with
    | Except.error e => Except.error e
    | Except.ok (r, m) =>
      Except.ok
        ([SvgElem.digitGroupOpen
            (if 1 < (splitComma (digitArg o)).length then
               (splitComma (digitArg o)).getD 1 ""
             else if o.h24 then "12px" else "20px")
            (scOf o)] ++
         (List.range m).map (fun j =>
           SvgElem.digitText (j + 1) m r
             (if firstCharStr ((splitComma (digitArg o)).headD "") = "r" then
                ROMAN.getD (j + 1) ""
              else toString (j + 1))) ++
         [SvgElem.groupClose])
  else Except.ok []

/-- Lines 303-311: the digital display placeholder.  Fails with
`NameError` when digits are requested but `sty` is unbound. -/
def digitalBlock (o : SvgOptions) : Except String SvgElem :=
  if digitTruthy o then
    (readSty (styO o)).map (fun sty =>
      if sty = "line" then SvgElem.digital (scOf o) 25 (29.5 : ℚ) 37 42
      else SvgElem.digital (scOf o) 22 (26.5 : ℚ) 34 39)
  else Except.ok (SvgElem.digital (scOf o) 20 (24.5 : ℚ) 32 37)

/-- Lines 210, 242, 244: opening, background and axis. -/
def preElems (o : SvgOptions) : List SvgElem :=
  [SvgElem.svgOpen,
   SvgElem.background ((bcOf o).getD 0 "") ((bcOf o).getD 1 "") ((bcOf o).getD 2 ""),
   SvgElem.axis (hcOf o)]

/-- Lines 313-334: notice, deviation, the three hands and the close. -/
def postElems (o : SvgOptions) : List SvgElem :=
  [SvgElem.notice,
   SvgElem.deviationBlock (scOf o) (scOf o),
   SvgElem.hourHand (hourhandId o) (hcOf o),
   SvgElem.minuteHand (hcOf o),
   SvgElem.secondHand "red",
   SvgElem.svgClose]

/-- `create_svg`, lines 209-334: the emitted elements in emission order,
or the `NameError` raised on the unbound local `sty`. -/
def create_svg (o : SvgOptions) : Except String (List SvgElem) :=
  match digitBlock o, digitalBlock o with
  | Except.ok digits, Except.ok dg =>
      Except.ok (preElems o ++ tickSection o ++ digits ++ [dg] ++ postElems o)
  | Except.error e, _ => Except.error e
  | Except.ok _, Except.error e => Except.error e

/-- The options dict `main()` builds from the CLI defaults
(`--scale=hour,minute`, `--scale-style=line`, no `--digit`, no `--24`). -/
def defaultOptions : SvgOptions :=
  { pfx := none,
    backgroundColor := some ["#000000", "#eaeaea", "#ffb2b2"],
    handColor := some "#000000",
    scaleColor := some "#404040",
    hScale := true,
    mScale := true,
    scaleRadius := 50,
    scaleStyle := some "line",
    h24 := false,
    digit := some none }

/-- The digit count `m` chosen at lines 291-296. -/
def mOf (o : SvgOptions) : ℕ := if o.h24 then 24 else 12

/-- The digit radius `r` chosen at lines 291-296 (on the non-crashing
paths, where `sty = styOf o`). -/
def rDig (o : SvgOptions) : ℚ :=
  if o.h24 then 39 else if styOf o = "line" then 35 else 39

/-- `typ = text_options[0][:1]`, line 285. -/
def typOf (o : SvgOptions) : String :=
  firstCharStr ((splitComma (digitArg o)).headD "")

/-- `txt = ROMAN[i] if typ=='r' else str(i)`, line 300. -/
def txtOf (o : SvgOptions) (i : ℕ) : String :=
  if typOf o = "r" then ROMAN.getD i "" else toString i

/-- `text_size`, lines 286-289. -/
def textSizeOf (o : SvgOptions) : String :=
  if 1 < (splitComma (digitArg o)).length then (splitComma (digitArg o)).getD 1 ""
  else if o.h24 then "12px" else "20px"

/-- The digit block on a non-crashing path. -/
def digitsOk (o : SvgOptions) : List SvgElem :=
  if digitTruthy o then
    [SvgElem.digitGroupOpen (textSizeOf o) (scOf o)] ++
    (List.range (mOf o)).map (fun j =>
      SvgElem.digitText (j + 1) (mOf o) (rDig o) (txtOf o (j + 1))) ++
    [SvgElem.groupClose]
  else []

/-- The digital-display element on a non-crashing path. -/
def digitalOk (o : SvgOptions) : SvgElem :=
  if digitTruthy o then
    if styOf o = "line" then SvgElem.digital (scOf o) 25 (29.5 : ℚ) 37 42
    else SvgElem.digital (scOf o) 22 (26.5 : ℚ) 34 39
  else SvgElem.digital (scOf o) 20 (24.5 : ℚ) 32 37

/-- The full output of `create_svg` on a non-crashing path. -/
def allElems (o : SvgOptions) : List SvgElem :=
  preElems o ++ tickSection o ++ digitsOk o ++ [digitalOk o] ++ postElems o

/-- Is an element a tick line of the 60-position loop? -/
def isTickLine : SvgElem → Bool
  | SvgElem.tickLine _ _ _ _ _ => true
  | _ => false

/-- Is an element a dot of the 24-hour ring? -/
def isRing24Dot : SvgElem → Bool
  | SvgElem.ring24Dot _ _ _ _ => true
  | _ => false

/-- `(index, stroke-width)` of a tick line. -/
def tickWidth : SvgElem → Option (ℕ × ℕ)
  | SvgElem.tickLine i _ _ _ b => some (i, b)
  | _ => none

/-- `(index, stroke-width)` of every tick line, in order. -/
def tickWidths (l : List SvgElem) : List (ℕ × ℕ) :=
  l.filterMap tickWidth

/-- `(index, modulus, text)` of a digit label. -/
def digitRec : SvgElem → Option (ℕ × ℕ × String)
  | SvgElem.digitText i m _ t => some (i, m, t)
  | _ => none

/-- `(index, modulus, text)` of every digit label, in order. -/
def digitRecs (l : List SvgElem) : List (ℕ × ℕ × String) :=
  l.filterMap digitRec

/-- The text of the digit label at the 12 o'clock position, i.e. the
label whose index `i` equals the modulus `m`. -/
def topDigit (l : List SvgElem) : Option String :=
  ((digitRecs l).filterMap (fun r => if r.1 = r.2.1 then some r.2.2 else none)).head?

/-- The id of an hour-hand group. -/
def hourHandId : SvgElem → Option String
  | SvgElem.hourHand hid _ => some hid
  | _ => none

/-- The ids of the hour-hand groups, in order. -/
def hourHandIds (l : List SvgElem) : List String :=
  l.filterMap hourHandId

/-- The color triple of a background circle. -/
def bgTriple : SvgElem → Option (String × String × String)
  | SvgElem.background c0 c1 c2 => some (c0, c1, c2)
  | _ => none

/-- The color triples of the background circles, in order. -/
def bgTriples (l : List SvgElem) : List (String × String × String) :=
  l.filterMap bgTriple

/-- Lines 298-301: the printed coordinates of digit label `i` of `m` at
radius `r`: `a = i/m*math.pi*2`, `x = 50+r*math.sin(a)`,
`y = 50-r*math.cos(a)`. -/
noncomputable def digitPos (i m : ℕ) (r : ℝ) : ℝ × ℝ :=
  (50 + r * Real.sin ((i : ℝ) / (m : ℝ) * Real.pi * 2),
   50 - r * Real.cos ((i : ℝ) / (m : ℝ) * Real.pi * 2))

/-- The template of line 301, verbatim: both coordinates are printed
with the `%.6f` conversion (6 decimal places). -/
def DIGIT_TEXT_TEMPLATE : String :=
  "<text x=\"%.6f%%\" y=\"%.6f%%\" dy=\"0.35em\">%s</text>"

/-- Lines 337-343 of `create_html`: the timezone key `tz[0]` and the
body `x` substituted into the `%s:{%s}` slot of `START_HTML` (line 138):
`x = "offset:"+tz[1]` when an offset is given, prefixed by `show:21,`
when the 24-hour hand is configured. -/
def create_html_subst (tz : String) (h24 : Bool) : String × String :=
  ((splitComma tz).headD "",
   (if h24 then
      String.intercalate "," ["show:21",
        if 1 < (splitComma tz).length then "offset:" ++ (splitComma tz).getD 1 "" else ""]
    else
      if 1 < (splitComma tz).length then "offset:" ++ (splitComma tz).getD 1 "" else ""))

/-- Occurrences of a pattern in a character list (used to state how many
`%.6f` conversions a template contains). -/
def countSub (pat : List Char) : List Char → ℕ
  | [] => 0
  | c :: rest => (if pat.isPrefixOf (c :: rest) then 1 else 0) + countSub pat rest

theorem filterMap_eq_map_of {α β : Type} (l : List α) (f : α → Option β) (g : α → β)
    (h : ∀ a ∈ l, f a = some (g a)) : l.filterMap f = l.map g := by
  induction l with
  | nil => rfl
  | cons a t ih =>
    rw [List.filterMap_cons, h a (by simp), List.map_cons,
      ih (fun x hx => h x (List.mem_cons_of_mem a hx))]

theorem length_filterMap_eq_countP {α β : Type} (l : List α) (f : α → Option β) (p : α → Bool)
    (h : ∀ a, (f a).isSome = p a) : (l.filterMap f).length = l.countP p := by
  induction l with
  | nil => rfl
  | cons a t ih =>
    rw [List.filterMap_cons, List.countP_cons]
    cases hf : f a
    · have hp : p a = false := by rw [← h a, hf]; rfl
      simp [hp, ih]
    · have hp : p a = true := by rw [← h a, hf]; rfl
      simp [hp, ih]

theorem range_filterMap_last {α : Type} (m : ℕ) (hm : 0 < m) (g : ℕ → α) :
    (List.range m).filterMap (fun j => if j + 1 = m then some (g j) else none) = [g (m - 1)] := by
  obtain ⟨n, rfl⟩ : ∃ n, m = n + 1 := ⟨m - 1, (Nat.succ_pred_eq_of_pos hm).symm⟩
  rw [List.range_succ, List.filterMap_append]
  have h1 : (List.range n).filterMap
      (fun j => if j + 1 = n + 1 then some (g j) else none) = [] := by
    refine List.filterMap_eq_nil_iff.mpr (fun a ha => ?_)
    have ha2 : a < n := List.mem_range.mp ha
    rw [if_neg (by omega)]
  simp [h1]
  intro a ha
  omega

theorem styO_eq_of_scale (o : SvgOptions) (h : (o.hScale || o.mScale) = true) :
    styO o = some (styOf o) := by
  simp [styO, styOf, h]

theorem digitBlock_ok_of (o : SvgOptions)
    (h : digitTruthy o = false ∨ (o.hScale || o.mScale) = true) :
    digitBlock o = Except.ok (digitsOk o) := by
  rcases h with h | h
  · simp [digitBlock, digitsOk, h]
  · unfold digitBlock digitsOk
    cases hd : digitTruthy o
    · simp
    · cases h24 : o.h24 <;>
        simp [styO_eq_of_scale o h, readSty, Except.map, mOf, rDig, textSizeOf, txtOf,
          typOf, h24]

theorem digitalBlock_ok_of (o : SvgOptions)
    (h : digitTruthy o = false ∨ (o.hScale || o.mScale) = true) :
    digitalBlock o = Except.ok (digitalOk o) := by
  rcases h with h | h
  · simp [digitalBlock, digitalOk, h]
  · unfold digitalBlock digitalOk
    cases hd : digitTruthy o
    · simp
    · simp [styO_eq_of_scale o h, readSty, Except.map, styOf]

theorem create_svg_ok_of (o : SvgOptions)
    (h : digitTruthy o = false ∨ (o.hScale || o.mScale) = true) :
    create_svg o = Except.ok (allElems o) := by
  unfold create_svg allElems
  rw [digitBlock_ok_of o h, digitalBlock_ok_of o h]

theorem create_svg_error_of (o : SvgOptions) (h1 : digitTruthy o = true)
    (h2 : (o.hScale || o.mScale) = false) :
    create_svg o = Except.error NAME_ERROR := by
  have hsty : styO o = none := by simp [styO, h2]
  unfold create_svg digitBlock digitalBlock
  cases h24 : o.h24 <;> simp [h1, hsty, readSty, Except.map, h24]

theorem create_svg_ok_elim (o : SvgOptions) (l : List SvgElem)
    (h : create_svg o = Except.ok l) : l = allElems o := by
  by_cases h1 : digitTruthy o = true
  · by_cases h2 : (o.hScale || o.mScale) = true
    · rw [create_svg_ok_of o (Or.inr h2)] at h
      exact (Except.ok.inj h).symm
    · rw [create_svg_error_of o h1 (by simpa using h2)] at h
      cases h
  · rw [create_svg_ok_of o (Or.inl (by simpa using h1))] at h
    exact (Except.ok.inj h).symm

theorem mem_tickSection_cases (o : SvgOptions) (e : SvgElem) (he : e ∈ tickSection o) :
    (∃ i r l c b, e = SvgElem.tickLine i r l c b) ∨
    (∃ i r rad c, e = SvgElem.tickDot i r rad c) ∨
    (∃ i r2 rad c, e = SvgElem.ring24Dot i r2 rad c) := by
  unfold tickSection at he
  split at he
  · rw [List.mem_append] at he
    rcases he with he | he
    · unfold loopTicks at he
      rcases List.mem_filterMap.mp he with ⟨i, _, hf⟩
      unfold tickElem at hf
      split at hf
      · split at hf
        · exact Or.inl ⟨i, _, _, _, _, (Option.some.inj hf).symm⟩
        · split at hf
          · exact Or.inr (Or.inl ⟨i, _, _, _, (Option.some.inj hf).symm⟩)
          · cases hf
      · cases hf
    · unfold ring24Elems at he
      split at he
      · rcases List.mem_map.mp he with ⟨i, _, hf⟩
        exact Or.inr (Or.inr ⟨i, _, _, _, hf.symm⟩)
      · cases he
  · cases he

theorem mem_digitsOk_cases (o : SvgOptions) (e : SvgElem) (he : e ∈ digitsOk o) :
    (∃ s c, e = SvgElem.digitGroupOpen s c) ∨
    (∃ i m r t, e = SvgElem.digitText i m r t) ∨
    e = SvgElem.groupClose := by
  unfold digitsOk at he
  split at he
  · rw [List.append_assoc, List.mem_append] at he
    rcases he with he | he
    · rcases List.mem_singleton.mp he with rfl
      exact Or.inl ⟨_, _, rfl⟩
    · rw [List.mem_append] at he
      rcases he with he | he
      · rcases List.mem_map.mp he with ⟨j, _, hf⟩
        exact Or.inr (Or.inl ⟨_, _, _, _, hf.symm⟩)
      · rcases List.mem_singleton.mp he with rfl
        exact Or.inr (Or.inr rfl)
  · cases he

theorem digitRecs_allElems (o : SvgOptions) :
    digitRecs (allElems o) =
      if digitTruthy o then
        (List.range (mOf o)).map (fun j => (j + 1, mOf o, txtOf o (j + 1)))
      else [] := by
  unfold allElems digitRecs
  rw [List.filterMap_append, List.filterMap_append, List.filterMap_append,
    List.filterMap_append]
  have hpre : (preElems o).filterMap digitRec = [] := by simp [preElems, digitRec]
  have htick : (tickSection o).filterMap digitRec = [] := by
    refine List.filterMap_eq_nil_iff.mpr (fun e he => ?_)
    rcases mem_tickSection_cases o e he with ⟨i, r, l, c, b, rfl⟩ | ⟨i, r, rad, c, rfl⟩ |
      ⟨i, r2, rad, c, rfl⟩ <;> rfl
  have hpost : (postElems o).filterMap digitRec = [] := by simp [postElems, digitRec]
  have hdg : [digitalOk o].filterMap digitRec = [] := by
    unfold digitalOk
    split
    · split <;> rfl
    · rfl
  rw [hpre, htick, hpost, hdg]
  unfold digitsOk
  split
  · rw [List.filterMap_append, List.filterMap_append, List.filterMap_map]
    have h1 : (List.range (mOf o)).filterMap
        (digitRec ∘ fun j => SvgElem.digitText (j + 1) (mOf o) (rDig o) (txtOf o (j + 1))) =
        (List.range (mOf o)).map (fun j => (j + 1, mOf o, txtOf o (j + 1))) := by
      exact filterMap_eq_map_of _ _ _ (fun a _ => rfl)
    simp [h1, digitRec]
  · simp

theorem bgTriples_allElems (o : SvgOptions) :
    bgTriples (allElems o) =
      [((bcOf o).getD 0 "", (bcOf o).getD 1 "", (bcOf o).getD 2 "")] := by
  unfold allElems bgTriples
  rw [List.filterMap_append, List.filterMap_append, List.filterMap_append,
    List.filterMap_append]
  have htick : (tickSection o).filterMap bgTriple = [] := by
    refine List.filterMap_eq_nil_iff.mpr (fun e he => ?_)
    rcases mem_tickSection_cases o e he with ⟨i, r, l, c, b, rfl⟩ | ⟨i, r, rad, c, rfl⟩ |
      ⟨i, r2, rad, c, rfl⟩ <;> rfl
  have hdig : (digitsOk o).filterMap bgTriple = [] := by
    refine List.filterMap_eq_nil_iff.mpr (fun e he => ?_)
    rcases mem_digitsOk_cases o e he with ⟨s, c, rfl⟩ | ⟨i, m, r, t, rfl⟩ | rfl <;> rfl
  have hdg : [digitalOk o].filterMap bgTriple = [] := by
    unfold digitalOk
    split
    · split <;> rfl
    · rfl
  rw [htick, hdig, hdg]
  simp [preElems, postElems, bgTriple]

theorem hourHandIds_allElems (o : SvgOptions) :
    hourHandIds (allElems o) = [hourhandId o] := by
  unfold allElems hourHandIds
  rw [List.filterMap_append, List.filterMap_append, List.filterMap_append,
    List.filterMap_append]
  have htick : (tickSection o).filterMap hourHandId = [] := by
    refine List.filterMap_eq_nil_iff.mpr (fun e he => ?_)
    rcases mem_tickSection_cases o e he with ⟨i, r, l, c, b, rfl⟩ | ⟨i, r, rad, c, rfl⟩ |
      ⟨i, r2, rad, c, rfl⟩ <;> rfl
  have hdig : (digitsOk o).filterMap hourHandId = [] := by
    refine List.filterMap_eq_nil_iff.mpr (fun e he => ?_)
    rcases mem_digitsOk_cases o e he with ⟨s, c, rfl⟩ | ⟨i, m, r, t, rfl⟩ | rfl <;> rfl
  have hdg : [digitalOk o].filterMap hourHandId = [] := by
    unfold digitalOk
    split
    · split <;> rfl
    · rfl
  rw [htick, hdig, hdg]
  simp [preElems, postElems, hourHandId]

theorem tickLB_line_config (o : SvgOptions) (hh : o.hScale = true) (hm : o.mScale = true)
    (h24 : o.h24 = false) (i : ℕ) :
    tickLB o i = (if i % 5 = 0 then (9, 5) else (5, 3)) := by
  unfold tickLB
  by_cases h5 : i % 5 = 0
  · rw [if_pos ⟨h5, by simp [hh], h24⟩, if_pos h5]
    simp [hm]
  · rw [if_neg (by tauto), if_pos (by simp [hm]), if_neg h5]

theorem tickElem_line_config (o : SvgOptions) (hh : o.hScale = true) (hm : o.mScale = true)
    (h24 : o.h24 = false) (hsty : styOf o = "line") (i : ℕ) :
    tickElem o i = some (SvgElem.tickLine i o.scaleRadius
      (if i % 5 = 0 then 9 else 5) (scOf o) (if i % 5 = 0 then 5 else 3)) := by
  unfold tickElem
  rw [tickLB_line_config o hh hm h24 i]
  by_cases h5 : i % 5 = 0 <;> simp [h5, hsty]

theorem tickWidth_isSome_iff (e : SvgElem) : (tickWidth e).isSome = isTickLine e := by
  cases e <;> rfl

theorem tickWidths_allElems_line_config (o : SvgOptions) (hh : o.hScale = true)
    (hm : o.mScale = true) (h24 : o.h24 = false) (hd : digitTruthy o = false)
    (hsty : styOf o = "line") :
    tickWidths (allElems o) =
      (List.range 60).map (fun i => (i, if i % 5 = 0 then 5 else 3)) := by
  unfold allElems tickWidths
  rw [List.filterMap_append, List.filterMap_append, List.filterMap_append,
    List.filterMap_append]
  have hpre : (preElems o).filterMap tickWidth = [] := by simp [preElems, tickWidth]
  have hpost : (postElems o).filterMap tickWidth = [] := by simp [postElems, tickWidth]
  have hdig : (digitsOk o).filterMap tickWidth = [] := by simp [digitsOk, hd]
  have hdg : [digitalOk o].filterMap tickWidth = [] := by
    unfold digitalOk
    by_cases h : digitTruthy o = true
    · by_cases h2 : styOf o = "line" <;> simp [h, h2, tickWidth]
    · simp [h, tickWidth]
  rw [hpre, hpost, hdig, hdg]
  unfold tickSection
  rw [if_pos (by simp [hh])]
  have hring : ring24Elems o = [] := by simp [ring24Elems, h24]
  rw [hring]
  unfold loopTicks
  have h1 : (List.range 60).filterMap (tickElem o) =
      (List.range 60).map (fun i => SvgElem.tickLine i o.scaleRadius
        (if i % 5 = 0 then 9 else 5) (scOf o) (if i % 5 = 0 then 5 else 3)) :=
    filterMap_eq_map_of _ _ _ (fun i _ => tickElem_line_config o hh hm h24 hsty i)
  rw [h1]
  simp only [List.append_nil, List.nil_append]
  rw [List.filterMap_map]
  have h2 : (List.range 60).filterMap
      ((tickWidth) ∘ (fun i => SvgElem.tickLine i o.scaleRadius
        (if i % 5 = 0 then 9 else 5) (scOf o) (if i % 5 = 0 then 5 else 3))) =
      (List.range 60).map (fun i => (i, if i % 5 = 0 then 5 else 3)) := by
    refine filterMap_eq_map_of _ _ _ (fun i _ => ?_)
    by_cases h5 : i % 5 = 0 <;> simp [h5, tickWidth]
  rw [h2]

theorem countTickLine_eq_length_tickWidths (l : List SvgElem) :
    l.countP isTickLine = (tickWidths l).length :=
  (length_filterMap_eq_countP l tickWidth isTickLine tickWidth_isSome_iff).symm

theorem isRing24Dot_count_allElems (o : SvgOptions) (h24 : o.h24 = true)
    (hh : o.hScale = true) : (allElems o).countP isRing24Dot = 24 := by
  unfold allElems
  rw [List.countP_append, List.countP_append, List.countP_append, List.countP_append]
  have hpre : (preElems o).countP isRing24Dot = 0 := by simp [preElems, isRing24Dot]
  have hpost : (postElems o).countP isRing24Dot = 0 := by simp [postElems, isRing24Dot]
  have hdig : (digitsOk o).countP isRing24Dot = 0 := by
    refine List.countP_eq_zero.mpr (fun e he => ?_)
    rcases mem_digitsOk_cases o e he with ⟨s, c, rfl⟩ | ⟨i, m, r, t, rfl⟩ | rfl <;> simp [isRing24Dot]
  have hdg : [digitalOk o].countP isRing24Dot = 0 := by
    unfold digitalOk
    split
    · split <;> rfl
    · rfl
  have hloop : (loopTicks o).countP isRing24Dot = 0 := by
    refine List.countP_eq_zero.mpr (fun e he => ?_)
    unfold loopTicks at he
    rcases List.mem_filterMap.mp he with ⟨i, _, hf⟩
    unfold tickElem at hf
    split at hf
    · split at hf
      · rw [← Option.some.inj hf]; simp [isRing24Dot]
      · split at hf
        · rw [← Option.some.inj hf]; simp [isRing24Dot]
        · cases hf
    · cases hf
  have hring : (ring24Elems o).countP isRing24Dot = 24 := by
    unfold ring24Elems
    rw [if_pos ⟨h24, hh⟩, List.countP_map]
    have : isRing24Dot ∘ (fun i : ℕ => SvgElem.ring24Dot i 34
        (((if o.digit.isSome then 5 else 8 : ℕ) : ℚ) / 2) (scOf o)) = fun _ => true := by
      funext i; rfl
    rw [this]
    simp [List.countP_true]
  unfold tickSection
  rw [if_pos (by simp [hh])]
  rw [List.countP_append, hpre, hpost, hdig, hdg, hloop, hring]

/-- CLI configuration `--svg --digit=roman --24`. -/
def cfgRoman24 : SvgOptions :=
  { defaultOptions with h24 := true, digit := some (some "roman") }

/-- CLI configuration `--svg --digit=roman`. -/
def cfgRoman12 : SvgOptions :=
  { defaultOptions with digit := some (some "roman") }

/-- CLI configuration `--svg --digit=x` (an unrecognized digit style). -/
def cfgDigitX : SvgOptions :=
  { defaultOptions with digit := some (some "x") }

/-- CLI configuration `--svg --scale=, --digit=arabic`: digits requested
while both the hour and the minute scale are disabled. -/
def cfgNoScaleDigits : SvgOptions :=
  { defaultOptions with hScale := false, mScale := false, digit := some (some "arabic") }

/-- a configuration whose background-color list has a single entry. -/
def cfgShortBC : SvgOptions :=
  { defaultOptions with backgroundColor := some ["#123456"] }

/-- a configuration whose background-color list has four entries. -/
def cfgLongBC : SvgOptions :=
  { defaultOptions with
      backgroundColor := some ["#111111", "#222222", "#333333", "#444444"] }

/-- CLI configuration `--svg --24`. -/
def cfgH24 : SvgOptions := { defaultOptions with h24 := true }

/-- CLI configuration `--svg --scale=hour --24`. -/
def cfgHourOnly24 : SvgOptions :=
  { defaultOptions with h24 := true, mScale := false }

/-- C1, counterexample: with digit style `roman` in 24-hour mode
(`m = 24`), the digit label emitted at the 12 o'clock position (index
`m`) is `ROMAN[24] = "XIV"`, not `"XII"` as the claim states for
`m = 24`. -/
theorem C1_counterexample :
    Except.map topDigit (create_svg cfgRoman24) = Except.ok (some "XIV") ∧
    ("XIV" : String) ≠ "XII" :=
  ⟨by rfl, by decide⟩

/-- C1 (amended): whenever digits are rendered, the label at the
12 o'clock position (index `m`) is `"XII"` (roman) or `"12"` (arabic)
in 12-hour mode, and `"XIV"` (the table entry `ROMAN[24]`, a misprint
for `"XXIV"`) or `"24"` in 24-hour mode. -/
theorem C1_top_digit_label (o : SvgOptions) (l : List SvgElem)
    (h : create_svg o = Except.ok l) (hd : digitTruthy o = true) :
    topDigit l = some (if typOf o = "r" then (if o.h24 then "XIV" else "XII")
                       else (if o.h24 then "24" else "12")) := by
  have hl := create_svg_ok_elim o l h
  subst hl
  unfold topDigit
  rw [digitRecs_allElems, if_pos hd, List.filterMap_map]
  have hm : 0 < mOf o := by unfold mOf; split <;> norm_num
  have h1 : (List.range (mOf o)).filterMap
      ((fun r => if r.1 = r.2.1 then some r.2.2 else none) ∘
        (fun j => (j + 1, mOf o, txtOf o (j + 1)))) =
      [txtOf o (mOf o - 1 + 1)] :=
    range_filterMap_last (mOf o) hm (fun j => txtOf o (j + 1))
  rw [h1]
  have h2 : mOf o - 1 + 1 = mOf o := Nat.succ_pred_eq_of_pos hm
  rw [h2, List.head?_cons]
  unfold txtOf mOf
  cases h24 : o.h24 <;> by_cases ht : typOf o = "r" <;> simp [ht, h24] <;> rfl

/-- C1 witness: with digit style `roman` in 12-hour mode the top label
is `"XII"`. -/
theorem C1_top_digit_label_witness :
    create_svg cfgRoman12 = Except.ok (allElems cfgRoman12) ∧
    digitTruthy cfgRoman12 = true ∧
    topDigit (allElems cfgRoman12) = some "XII" :=
  ⟨by rfl, rfl, C1_top_digit_label cfgRoman12 (allElems cfgRoman12) (by rfl) rfl⟩

/-- C2, counterexample: with the unrecognized digit style `"x"` (first
character neither `a` nor `r`, not empty), 12 digit-label text elements
ARE emitted (with arabic numerals), contradicting the claim that none
are. -/
theorem C2_counterexample :
    Except.map (fun l => (digitRecs l).length) (create_svg cfgDigitX) = Except.ok 12 ∧
    (12 : ℕ) ≠ 0 :=
  ⟨by rfl, by norm_num⟩

/-- C2 (amended): a set, non-empty digit-style value whose first
character is not `r` does NOT suppress digits: the digit labels are
emitted with arabic numerals (`str(i)`), and no error is raised
provided at least one scale is enabled. -/
theorem C2_unrecognized_digit_arabic (o : SvgOptions) (hd : digitTruthy o = true)
    (hs : (o.hScale || o.mScale) = true) (ht : typOf o ≠ "r") :
    ∃ l, create_svg o = Except.ok l ∧
      digitRecs l = (List.range (mOf o)).map (fun j => (j + 1, mOf o, toString (j + 1))) := by
  refine ⟨allElems o, create_svg_ok_of o (Or.inr hs), ?_⟩
  rw [digitRecs_allElems, if_pos hd]
  have h1 : (fun j : ℕ => (j + 1, mOf o, txtOf o (j + 1))) =
      (fun j : ℕ => (j + 1, mOf o, toString (j + 1))) := by
    funext j
    simp [txtOf, ht]
  rw [h1]

/-- C2 witness: the configuration with digit style `"x"`. -/
theorem C2_unrecognized_digit_arabic_witness :
    digitTruthy cfgDigitX = true ∧ (cfgDigitX.hScale || cfgDigitX.mScale) = true ∧
    typOf cfgDigitX ≠ "r" ∧
    (∃ l, create_svg cfgDigitX = Except.ok l ∧
      digitRecs l = (List.range (mOf cfgDigitX)).map
        (fun j => (j + 1, mOf cfgDigitX, toString (j + 1)))) :=
  ⟨rfl, rfl, by decide, C2_unrecognized_digit_arabic cfgDigitX rfl rfl (by decide)⟩

/-- C3, evaluation at the failing input: with digits requested and both
scales disabled, create_svg aborts with the NameError on the unbound
local variable sty (lines 295 and 305 read sty, which is assigned only
inside the scale block at lines 248-251) — contradicting the claim that
every configuration completes without error. -/
theorem C3_digits_without_scale_raises :
    create_svg cfgNoScaleDigits = Except.error NAME_ERROR := by rfl

/-- C4: with both scales enabled, digit style none, 12-hour mode and
line style, the output has exactly 60 tick-line elements, stroke width
5 at indices divisible by 5 and 3 otherwise. -/
theorem C4_sixty_ticks (o : SvgOptions) (hh : o.hScale = true) (hm : o.mScale = true)
    (h24 : o.h24 = false) (hd : digitTruthy o = false) (hsty : styOf o = "line") :
    ∃ l, create_svg o = Except.ok l ∧
      tickWidths l = (List.range 60).map (fun i => (i, if i % 5 = 0 then 5 else 3)) ∧
      l.countP isTickLine = 60 := by
  refine ⟨allElems o, create_svg_ok_of o (Or.inl hd), ?_, ?_⟩
  · exact tickWidths_allElems_line_config o hh hm h24 hd hsty
  · rw [countTickLine_eq_length_tickWidths,
      tickWidths_allElems_line_config o hh hm h24 hd hsty]
    simp

/-- C4 witness: the CLI default configuration. -/
theorem C4_sixty_ticks_witness :
    defaultOptions.hScale = true ∧ defaultOptions.mScale = true ∧
    defaultOptions.h24 = false ∧ digitTruthy defaultOptions = false ∧
    styOf defaultOptions = "line" ∧
    (∃ l, create_svg defaultOptions = Except.ok l ∧
      tickWidths l = (List.range 60).map (fun i => (i, if i % 5 = 0 then 5 else 3)) ∧
      l.countP isTickLine = 60) :=
  ⟨rfl, rfl, rfl, rfl, rfl, C4_sixty_ticks defaultOptions rfl rfl rfl rfl rfl⟩

/-- C5: in 24-hour mode with the hour scale enabled, the output has a
secondary ring of exactly 24 dot markers, and the hour-hand group id is
prefix ++ Hour24Hand. -/
theorem C5_ring24_and_id (o : SvgOptions) (h24 : o.h24 = true) (hh : o.hScale = true) :
    ∃ l, create_svg o = Except.ok l ∧ l.countP isRing24Dot = 24 ∧
      hourHandIds l = [o.pfx.getD "ptb" ++ "Hour24Hand"] := by
  refine ⟨allElems o, create_svg_ok_of o (Or.inr (by simp [hh])), ?_, ?_⟩
  · exact isRing24Dot_count_allElems o h24 hh
  · rw [hourHandIds_allElems]
    unfold hourhandId
    rw [if_pos h24]

/-- C5 witness: CLI configuration with the 24-hour hand. -/
theorem C5_ring24_and_id_witness :
    cfgH24.h24 = true ∧ cfgH24.hScale = true ∧
    (∃ l, create_svg cfgH24 = Except.ok l ∧ l.countP isRing24Dot = 24 ∧
      hourHandIds l = ["ptbHour24Hand"]) :=
  ⟨rfl, rfl, C5_ring24_and_id cfgH24 rfl rfl⟩

/-- C6: on every run that produces output, a background-color list with
fewer than 3 entries (or none at all) yields the default triple, and a
list with at least 3 entries yields its first three entries unchanged. -/
theorem C6_background_fallback (o : SvgOptions) (l : List SvgElem)
    (h : create_svg o = Except.ok l) :
    (o.backgroundColor = none → bgTriples l = [("#000000", "#eaeaea", "#ffb2b2")]) ∧
    (∀ lst, o.backgroundColor = some lst → lst.length < 3 →
      bgTriples l = [("#000000", "#eaeaea", "#ffb2b2")]) ∧
    (∀ lst, o.backgroundColor = some lst → 3 ≤ lst.length →
      bgTriples l = [(lst.getD 0 "", lst.getD 1 "", lst.getD 2 "")]) := by
  have hl := create_svg_ok_elim o l h
  subst hl
  rw [bgTriples_allElems]
  refine ⟨?_, ?_, ?_⟩
  · intro hbc
    have hb : bcOf o = defaultBC := by
      unfold bcOf
      rw [hbc]
    rw [hb]
    rfl
  · intro lst hbc hlen
    have hb : bcOf o = defaultBC := by
      unfold bcOf
      rw [hbc]
      show (if 3 ≤ lst.length then lst else defaultBC) = defaultBC
      rw [if_neg (by omega)]
    rw [hb]
    rfl
  · intro lst hbc hlen
    have hb : bcOf o = lst := by
      unfold bcOf
      rw [hbc]
      show (if 3 ≤ lst.length then lst else defaultBC) = lst
      rw [if_pos hlen]
    rw [hb]

/-- C6 witness: a 1-entry list falls back to the default triple; a
4-entry list keeps its first three entries. -/
theorem C6_background_fallback_witness :
    create_svg cfgShortBC = Except.ok (allElems cfgShortBC) ∧
    bgTriples (allElems cfgShortBC) = [("#000000", "#eaeaea", "#ffb2b2")] ∧
    bgTriples (allElems cfgLongBC) = [("#111111", "#222222", "#333333")] :=
  ⟨by rfl,
   (C6_background_fallback cfgShortBC (allElems cfgShortBC) (by rfl)).2.1
     ["#123456"] rfl (by norm_num),
   (C6_background_fallback cfgLongBC (allElems cfgLongBC) (by rfl)).2.2
     ["#111111", "#222222", "#333333", "#444444"] rfl (by norm_num)⟩

/-- C7: the digit label position is x = 50 + r sin(i/m 2 pi),
y = 50 - r cos(i/m 2 pi); index m lands at 12 o'clock (x = 50,
y = 50 - r); the printing template carries exactly two 6-decimal-place
conversions, one per coordinate. -/
theorem C7_digit_position (i m : ℕ) (r : ℝ) (hm : 0 < m) :
    digitPos i m r =
      (50 + r * Real.sin ((i : ℝ) / (m : ℝ) * Real.pi * 2),
       50 - r * Real.cos ((i : ℝ) / (m : ℝ) * Real.pi * 2)) ∧
    digitPos m m r = (50, 50 - r) ∧
    countSub ("%.6f".data) (DIGIT_TEXT_TEMPLATE.data) = 2 := by
  refine ⟨rfl, ?_, by rfl⟩
  unfold digitPos
  have hm0 : (m : ℝ) ≠ 0 := Nat.cast_ne_zero.mpr hm.ne'
  rw [div_self hm0, one_mul, mul_comm Real.pi 2, Real.sin_two_pi, Real.cos_two_pi]
  simp

/-- C7 witness: the 12-hour dial at radius 35. -/
theorem C7_digit_position_witness :
    0 < 12 ∧
    (digitPos 12 12 35 =
      (50 + 35 * Real.sin (((12 : ℕ) : ℝ) / ((12 : ℕ) : ℝ) * Real.pi * 2),
       50 - 35 * Real.cos (((12 : ℕ) : ℝ) / ((12 : ℕ) : ℝ) * Real.pi * 2)) ∧
     digitPos 12 12 35 = (50, 50 - 35) ∧
     countSub ("%.6f".data) (DIGIT_TEXT_TEMPLATE.data) = 2) :=
  ⟨by norm_num, C7_digit_position 12 12 35 (by norm_num)⟩

/-- C8: with timezone argument UTC,3600 the fragment substituted into
the inline script configuration is the key UTC with body offset:3600
(prefixed by show:21, in 24-hour mode, which still embeds the offset). -/
theorem C8_html_tz_utc_offset (h24 : Bool) :
    create_html_subst "UTC,3600" h24 =
      ("UTC", if h24 then "show:21,offset:3600" else "offset:3600") := by
  cases h24 <;> rfl

/-- C9: the generator is deterministic — it reads nothing but the
configuration, so equal configurations give identical output. -/
theorem C9_deterministic (o1 o2 : SvgOptions) (h : o1 = o2) :
    create_svg o1 = create_svg o2 :=
  congrArg create_svg h

/-- C9 witness: the CLI default configuration. -/
theorem C9_deterministic_witness :
    defaultOptions = defaultOptions ∧
    create_svg defaultOptions = create_svg defaultOptions :=
  ⟨rfl, C9_deterministic defaultOptions defaultOptions rfl⟩

/-- C10: in 24-hour mode every position of the 60-position loop gets
the minute styling (length 5, width 3) when the minute scale is
enabled and nothing otherwise; with the minute scale disabled the loop
emits no ticks at all. -/
theorem C10_h24_loop (o : SvgOptions) (h24 : o.h24 = true) :
    (∀ i, i < 60 → tickLB o i = if o.mScale then (5, 3) else (0, 0)) ∧
    (o.mScale = false → loopTicks o = []) := by
  constructor
  · intro i _
    unfold tickLB
    rw [if_neg (by simp [h24])]
  · intro hm
    have hlb : ∀ i : ℕ, tickLB o i = (0, 0) := by
      intro i
      unfold tickLB
      rw [if_neg (by simp [h24]), if_neg (by simp [hm])]
    unfold loopTicks
    refine List.filterMap_eq_nil_iff.mpr (fun i _ => ?_)
    unfold tickElem
    rw [hlb i]
    simp

/-- C10 witness: 24-hour mode with only the hour scale enabled. -/
theorem C10_h24_loop_witness :
    cfgHourOnly24.h24 = true ∧ tickLB cfgHourOnly24 10 = (0, 0) ∧
    loopTicks cfgHourOnly24 = [] := by
  have h := C10_h24_loop cfgHourOnly24 rfl
  refine ⟨rfl, ?_, h.2 rfl⟩
  rw [h.1 10 (by norm_num)]
  rfl
